import Mathlib

/-
Verification of the OAuth2 session lifecycle of flask_discord
(src/flask_discord/client.py), as a shallow embedding in Lean 4.

Python strings stored in the flask session are modelled by the inductive
type SVal below; the PyJWT collaborator is modelled as an injective keyed
encoding per the State Codec contract of the specification; the flask
session is a record with one slot per session key used by the client.
-/

namespace FlaskDiscord

/-- Parameter mappings passed through the OAuth2 state (the Python kwargs
dict of create_session), modelled as association lists of string keys and
string values. -/
abbrev Params := List (String × String)

/-- Session-stored state values: Python strings that are either opaque
random tokens from oauthlib.common.generate_token, or serialized JWTs
produced by jwt.encode from a payload and a signing key. Constructor
injectivity models the injectivity of JWT serialization. -/
inductive SVal : Type where
  | tok : String → SVal
  | jwt : Params → SVal → SVal
deriving DecidableEq, Repr

/-- Exceptions raised by the embedded Python code: ValueError (what the
specification calls ConfigurationError) and a jwt verification failure
(what the specification calls InvalidStateError). -/
inductive PyError : Type where
  | valueError : String → PyError
  | invalidState : PyError
deriving DecidableEq, Repr

/-- Modelled from the spec: jwt.encode (external PyJWT collaborator, called
on line 98 of client.py). State Codec contract of the specification: signs
the params with the raw state as key, producing an opaque string. -/
def jwtEncode (payload : Params) (key : SVal) : SVal := .jwt payload key

/-- Modelled from the spec: jwt.decode (external PyJWT collaborator, called
on line 157 of client.py). State Codec contract of the specification:
verification succeeds only for the holder of the same key, returning
exactly the encoded payload; any other input fails. -/
def jwtDecode (token : SVal) (key : SVal) : Except PyError Params :=
  match token with
  | .tok _ => .error .invalidState
  | .jwt p k => if k = key then .ok p else .error .invalidState

/-- OAuth2 token record (the dict returned by the token endpoint); only the
access token field is relevant to the embedded claims. -/
structure TokenRecord where
  accessToken : String
deriving DecidableEq, Repr

/-- Flask session slots used by the client: keys DISCORD_RAW_OAUTH2_STATE,
DISCORD_OAUTH2_STATE and DISCORD_OAUTH2_TOKEN; a none slot is an absent
key. -/
structure Session where
  rawState : Option SVal
  oauthState : Option SVal
  token : Option TokenRecord
deriving DecidableEq, Repr

/-- Modelled from the spec: configs.DISCORD_OAUTH_DEFAULT_SCOPES (configs.py
is not under src/); the configured default scope set used when the caller
and the request supply none. -/
def DISCORD_OAUTH_DEFAULT_SCOPES : List String :=
  ["identify", "email", "guilds", "guilds.join"]

/-- Modelled from the spec: configs.DISCORD_PASSTHROUGH_SCOPES (configs.py
is not under src/); the scopes granting elevated bot-level access, which
require explicit consent. -/
def DISCORD_PASSTHROUGH_SCOPES : List String := ["bot"]

/-- The permissions argument of create_session: a discord.Permissions
wrapper (whose value attribute is a non-negative bitmask), a raw Python
int, or any other Python value (carried as a description; it fails both
isinstance checks of line 88). -/
inductive PermArg : Type where
  | permsObj : Nat → PermArg
  | intVal : Int → PermArg
  | other : String → PermArg
deriving DecidableEq, Repr

/-- Query-parameter values appearing in the authorization URL. -/
inductive QVal : Type where
  | s : String → QVal
  | i : Int → QVal
  | b : Bool → QVal
  | st : SVal → QVal
deriving DecidableEq, Repr

/-- Client configuration: the application id and the redirect URI. -/
structure ClientConfig where
  clientId : Nat
  redirectUri : String
deriving DecidableEq, Repr

/-- Python str.split() on whitespace, dropping empty pieces. -/
def pySplit (s : String) : List String :=
  (s.split (fun c => c = ' ')).filter (fun w => w ≠ "")

/-- Line 83 of client.py: scope defaulting with Python truthiness (None and
the empty list are falsy): the caller argument, else the split request
query argument, else the configured defaults. -/
def effectiveScope (scope : Option (List String)) (reqScope : Option String) :
    List String :=
  let s1 := match scope with | some l => l | none => []
  if s1 ≠ [] then s1
  else
    let s2 := pySplit (reqScope.getD "")
    if s2 ≠ [] then s2 else DISCORD_OAUTH_DEFAULT_SCOPES

/-- Modelled from the spec: self._make_session(scope, state).authorization_url
(_http.py is not under src/ and oauthlib is external). Builds the base
authorization URL query holding the client id, the redirect URI, the
space-joined scope string and the encoded state; the state comes back
unchanged alongside the URL. -/
def baseAuthParams (cfg : ClientConfig) (scope : List String) (state : SVal) :
    List (String × QVal) :=
  [("response_type", QVal.s "code"),
   ("client_id", QVal.i (Int.ofNat cfg.clientId)),
   ("redirect_uri", QVal.s cfg.redirectUri),
   ("scope", QVal.s (String.intercalate " " scope)),
   ("state", QVal.st state)]

/-- Outcome of create_session: either a raised ValueError (session untouched,
no URL built) or the query parameters of the authorization URL redirected
to, together with the final session. -/
structure CSOutcome where
  result : Except PyError (List (String × QVal))
  session : Session

/-- Embedding of DiscordOAuth2Session.create_session (client.py lines
52-119). freshToken is the oracle for oauthlib generate_token; reqScope is
the request query argument scope. Mirrors the source line by line: the
passthrough-scope check of line 85, the isinstance check of line 88, the
lookup of session key DISCORD_OAUTH2_STATE on line 97, the jwt encoding of
line 98 keyed by the just-assigned raw state, the save of the encoded
state on line 104, and the Python truthiness tests on permissions and
guild_id of lines 108-117 (with permissions appended twice when truthy,
lines 109 and 117). -/
def create_session (cfg : ClientConfig) (sess : Session)
    (scope : Option (List String)) (prompt : String)
    (permissions : Option PermArg) (guild_id : Option Int)
    (disable_guild_select : Option Bool) (params : Params)
    (reqScope : Option String) (freshToken : String) : CSOutcome :=
  let scopeEff := effectiveScope scope reqScope
  if prompt != "consent" && scopeEff.any (fun s => DISCORD_PASSTHROUGH_SCOPES.contains s) then
    ⟨.error (.valueError "You should use explicit OAuth grant for passthrough scopes like bot."), sess⟩
  else
    match permissions with
    | some (.other _) =>
        ⟨.error (.valueError "permissions must be an int or discord.Permissions."), sess⟩
    | _ =>
      let perms : Option Int :=
        match permissions with
        | some (.permsObj n) => some (Int.ofNat n)
        | some (.intVal i) => some i
        | _ => none
      let raw := sess.oauthState.getD (.tok freshToken)
      let sess1 : Session := { sess with rawState := some raw }
      let state := jwtEncode params raw
      let sess2 : Session := { sess1 with oauthState := some state }
      let permPart : List (String × QVal) :=
        match perms with
        | some p => if p != 0 then [("permissions", QVal.i p)] else []
        | none => []
      let uriParams : List (String × QVal) :=
        [("prompt", QVal.s prompt)]
        ++ permPart
        ++ (match guild_id with
            | some g => if g != 0 then [("guild_id", QVal.i g)] else []
            | none => [])
        ++ (match disable_guild_select with
            | some b => [("disable_guild_select", QVal.b b)]
            | none => [])
      ⟨.ok (baseAuthParams cfg scopeEff state ++ uriParams ++ permPart), sess2⟩

/-- Embedding of the static method save_authorization_token (client.py line
130): stores the token dict under session key DISCORD_OAUTH2_TOKEN. -/
def save_authorization_token (sess : Session) (token : TokenRecord) : Session :=
  { sess with token := some token }

/-- Inbound callback request: request.values.get("error") and
request.args.get("state"). -/
structure CallbackRequest where
  error : Option String
  state : Option SVal
deriving DecidableEq, Repr

/-- Value returned by callback: the raw provider error string (returned as
data), or the params decoded out of the state. -/
inductive CallbackResult : Type where
  | errorStr : String → CallbackResult
  | params : Params → CallbackResult
deriving DecidableEq, Repr

/-- Outcome of callback: the returned value or the propagated exception, the
final session (session mutations persist even when an exception
propagates), and whether the token endpoint was called. -/
structure CBOutcome where
  result : Except PyError CallbackResult
  session : Session
  tokenCalled : Bool

/-- jwt.decode applied to the optional request state and the optional
session raw state, as on line 157 of client.py; a missing state or missing
key makes decoding raise. -/
def decodeState (passed : Option SVal) (raw : Option SVal) : Except PyError Params :=
  match passed, raw with
  | some t, some k => jwtDecode t k
  | _, _ => .error .invalidState

/-- Embedding of DiscordOAuth2Session.callback (client.py lines 142-157).
fetchedToken is the oracle for self._fetch_token (the external token
endpoint). The provider-error short circuit of line 149 uses Python
truthiness (an empty error string is falsy); otherwise the token is
fetched and saved (lines 151-152) before the state is decoded (line
157). -/
def callback (sess : Session) (req : CallbackRequest) (fetchedToken : TokenRecord) :
    CBOutcome :=
  let errTruthy : Bool := match req.error with | some e => e != "" | none => false
  if errTruthy then
    ⟨.ok (.errorStr (req.error.getD "")), sess, false⟩
  else
    let sess1 := save_authorization_token sess fetchedToken
    ⟨(decodeState req.state sess1.rawState).map CallbackResult.params, sess1, true⟩

/-- A cached user entry: the identity plus optionally attached connection
and guild lists (models.py attaches these lists to the user entry rather
than caching them independently). -/
structure User where
  uid : Nat
  connections : Option (List String)
  guilds : Option (List String)
deriving DecidableEq, Repr

/-- The process-wide users cache: a mapping from user id to cached user,
modelled as an association list. -/
abbrev UsersCache := List (Nat × User)

/-- Embedding of self.users_cache.pop(self.user_id, None) on line 167 of
client.py: removes the entry for the given id, tolerating its absence. -/
def cachePop (c : UsersCache) (uid : Nat) : UsersCache :=
  c.filter (fun kv => kv.1 != uid)

/-- Insertion of a freshly fetched user into the users cache. -/
def cacheInsert (c : UsersCache) (uid : Nat) (u : User) : UsersCache :=
  (uid, u) :: cachePop c uid

/-- Modelled from the spec: models.User.get_from_cache (models.py is not
under src/): looks the current authenticated identity up in the users
cache. -/
def get_from_cache (c : UsersCache) (uid : Nat) : Option User :=
  (c.find? (fun kv => kv.1 == uid)).map (fun kv => kv.2)

/-- Modelled from the spec: _http.DiscordOAuth2HttpClient.SESSION_KEYS
(_http.py is not under src/); per the specification it covers every
session-state key: raw state, encoded state and token record. -/
def SESSION_KEYS : List String :=
  ["DISCORD_RAW_OAUTH2_STATE", "DISCORD_OAUTH2_STATE", "DISCORD_OAUTH2_TOKEN"]

/-- session.pop(key) with the KeyError swallowed (client.py lines 169-173):
clears the named slot, tolerating a missing key; unknown keys are a
no-op. -/
def sessionPop (s : Session) (key : String) : Session :=
  if key = "DISCORD_RAW_OAUTH2_STATE" then { s with rawState := none }
  else if key = "DISCORD_OAUTH2_STATE" then { s with oauthState := none }
  else if key = "DISCORD_OAUTH2_TOKEN" then { s with token := none }
  else s

/-- Combined client-visible state for revocation: the process-wide users
cache together with the flask session of the current user. -/
structure ClientState where
  usersCache : UsersCache
  session : Session
deriving DecidableEq, Repr

/-- Embedding of revoke (client.py lines 159-173): drops the cache entry of
the current identity and pops every key of SESSION_KEYS from the
session. -/
def revoke (st : ClientState) (uid : Nat) : ClientState :=
  ⟨cachePop st.usersCache uid, SESSION_KEYS.foldl sessionPop st.session⟩

/-- Modelled from the spec: the authorized property delegates to
self._make_session().authorized (_http.py is not under src/ and
requests_oauthlib is external); per the specification it is true iff the
Token Store holds a record the OAuth session considers valid, i.e. a token
with a non-empty access token. -/
def authorized (sess : Session) : Bool :=
  match sess.token with
  | some t => t.accessToken != ""
  | none => false

/-- Outcome of a resource fetch: the returned value, the users cache after
the call, and how many upstream API calls were made. -/
structure FetchOutcome (α : Type) where
  value : α
  cache : UsersCache
  upstreamCalls : Nat
deriving DecidableEq, Repr

/-- Embedding of fetch_user (client.py lines 180-189): the cached user if
present, otherwise one API fetch. apiUser is the oracle for
models.User.fetch_from_api, which per the specification populates the
cache (modelled from the spec: models.py is not under src/). -/
def fetch_user (c : UsersCache) (uid : Nat) (apiUser : User) : FetchOutcome User :=
  match get_from_cache c uid with
  | some u => ⟨u, c, 0⟩
  | none => ⟨apiUser, cacheInsert c uid apiUser, 1⟩

/-- Embedding of fetch_connections (client.py lines 191-209): returns the
connections attached to the cached user when present; an absent user makes
the attribute access raise AttributeError, which is caught, so a miss
performs one API fetch (models.UserConnection.fetch_from_api, modelled
from the spec: it attaches the fetched list to the cached user entry when
one exists). -/
def fetch_connections (c : UsersCache) (uid : Nat) (apiConns : List String) :
    FetchOutcome (List String) :=
  match get_from_cache c uid with
  | some u =>
      match u.connections with
      | some cs => ⟨cs, c, 0⟩
      | none => ⟨apiConns, cacheInsert c uid { u with connections := some apiConns }, 1⟩
  | none => ⟨apiConns, c, 1⟩

/-- Embedding of fetch_guilds (client.py lines 211-229), analogous to
fetch_connections (models.Guild.fetch_from_api modelled from the spec as
attaching the fetched list to the cached user entry when one exists). -/
def fetch_guilds (c : UsersCache) (uid : Nat) (apiGuilds : List String) :
    FetchOutcome (List String) :=
  match get_from_cache c uid with
  | some u =>
      match u.guilds with
      | some gs => ⟨gs, c, 0⟩
      | none => ⟨apiGuilds, cacheInsert c uid { u with guilds := some apiGuilds }, 1⟩
  | none => ⟨apiGuilds, c, 1⟩

/-! Helper lemmas shared by the claim theorems. -/

/-- Decoding an encoded state with the key it was encoded under recovers
exactly the payload. -/
theorem jwtDecode_jwtEncode (p : Params) (k : SVal) :
    jwtDecode (jwtEncode p k) k = .ok p := by
  simp [jwtDecode, jwtEncode]

/-- Decoding an encoded state under a different key fails. -/
theorem jwtDecode_jwtEncode_ne (p : Params) (k k2 : SVal) (h : k ≠ k2) :
    jwtDecode (jwtEncode p k) k2 = .error .invalidState := by
  simp [jwtDecode, jwtEncode, h]

/-- After popping an id from the users cache, lookup of that id misses. -/
theorem get_from_cache_cachePop (c : UsersCache) (uid : Nat) :
    get_from_cache (cachePop c uid) uid = none := by
  simp only [get_from_cache, cachePop, Option.map_eq_none', List.find?_eq_none,
    List.mem_filter]
  intro kv hkv
  simpa using hkv.2

/-- After inserting a user under an id, lookup of that id returns it. -/
theorem get_from_cache_cacheInsert (c : UsersCache) (uid : Nat) (u : User) :
    get_from_cache (cacheInsert c uid u) uid = some u := by
  simp [get_from_cache, cacheInsert, List.find?_cons]

/-! The claims. -/

/-- C1: state generation is not idempotent within a session. At a session
that already holds the raw state token "r" under DISCORD_RAW_OAUTH2_STATE
(and no encoded state), create_session overwrites the raw state with a
freshly generated token "f" instead of reusing "r", because line 97 of
client.py reads session key DISCORD_OAUTH2_STATE rather than
DISCORD_RAW_OAUTH2_STATE; moreover two consecutive create_session calls on
a fresh session sign with different raw states (the second call signs with
the encoded state produced by the first). -/
theorem c1_create_session_regenerates_raw_state :
    ((create_session ⟨1, "u"⟩ ⟨some (.tok "r"), none, none⟩ none "consent" none none
        none [] none "f").session.rawState = some (.tok "f")
      ∧ SVal.tok "f" ≠ SVal.tok "r")
    ∧ ((create_session ⟨1, "u"⟩
          (create_session ⟨1, "u"⟩ ⟨none, none, none⟩ none "consent" none none none []
            none "f").session
          none "consent" none none none [] none "f2").session.rawState
        = some (.jwt [] (.tok "f"))
      ∧ (create_session ⟨1, "u"⟩ ⟨none, none, none⟩ none "consent" none none none []
          none "f").session.rawState = some (.tok "f")
      ∧ SVal.jwt [] (.tok "f") ≠ SVal.tok "f") :=
  ⟨⟨rfl, by decide⟩, ⟨rfl, rfl, by decide⟩⟩

/-- C2: params round-trip through the state. For every session, parameter
mapping and fresh token, the state encoded by create_session (stored in
session key DISCORD_OAUTH2_STATE and echoed back by the provider) decodes
in callback, against the raw state the same call stored, to exactly the
supplied params. -/
theorem c2_state_roundtrip (cfg : ClientConfig) (sess : Session) (params : Params)
    (reqScope : Option String) (fresh : String) (tok : TokenRecord) :
    (callback
      (create_session cfg sess none "consent" none none none params reqScope fresh).session
      ⟨none, (create_session cfg sess none "consent" none none none params reqScope
        fresh).session.oauthState⟩
      tok).result = .ok (.params params) := by
  simp [create_session, callback, decodeState, save_authorization_token,
    jwtDecode_jwtEncode, Except.map]

/-- C3: decoding a state encoded under raw state R against a different raw
state R2 fails with the invalid-state error, and callback propagates that
error to its caller instead of swallowing it. -/
theorem c3_wrong_key_fails (p : Params) (R R2 : SVal) (sess : Session)
    (tok : TokenRecord) (hne : R ≠ R2) (hraw : sess.rawState = some R2) :
    jwtDecode (jwtEncode p R) R2 = .error .invalidState
    ∧ (callback sess ⟨none, some (jwtEncode p R)⟩ tok).result = .error .invalidState := by
  constructor
  · exact jwtDecode_jwtEncode_ne p R R2 hne
  · simp [callback, decodeState, save_authorization_token, hraw,
      jwtDecode_jwtEncode_ne p R R2 hne, Except.map]

/-- Witness for C3 at concrete inputs: raw states "a" and "b". -/
theorem c3_wrong_key_fails_witness :
    jwtDecode (jwtEncode [] (.tok "a")) (.tok "b") = .error .invalidState
    ∧ (callback ⟨some (.tok "b"), none, none⟩ ⟨none, some (jwtEncode [] (.tok "a"))⟩
        ⟨"t"⟩).result = .error .invalidState :=
  c3_wrong_key_fails [] (.tok "a") (.tok "b") ⟨some (.tok "b"), none, none⟩ ⟨"t"⟩
    (by decide) rfl

/-- C4: whenever prompt is not "consent" and the effective scope list
contains a passthrough scope, create_session raises the configuration
error and returns the session untouched: no authorization URL is built and
no redirect happens. -/
theorem c4_passthrough_requires_consent (cfg : ClientConfig) (sess : Session)
    (scope : Option (List String)) (prompt : String) (permissions : Option PermArg)
    (guild_id : Option Int) (dgs : Option Bool) (params : Params)
    (reqScope : Option String) (fresh : String)
    (hp : prompt ≠ "consent")
    (hs : (effectiveScope scope reqScope).any
      (fun s => DISCORD_PASSTHROUGH_SCOPES.contains s) = true) :
    create_session cfg sess scope prompt permissions guild_id dgs params reqScope fresh
      = ⟨.error (.valueError "You should use explicit OAuth grant for passthrough scopes like bot."),
          sess⟩ := by
  have hcond : (prompt != "consent"
      && (effectiveScope scope reqScope).any
        (fun s => DISCORD_PASSTHROUGH_SCOPES.contains s)) = true := by
    rw [Bool.and_eq_true]
    exact ⟨by simpa using hp, hs⟩
  simp only [create_session, hcond, if_true]

/-- Witness for C4: requesting prompt "none" with the passthrough scope
"bot" fails with the configuration error and leaves the session
untouched. -/
theorem c4_passthrough_witness :
    create_session ⟨1, "u"⟩ ⟨none, none, none⟩ (some ["bot"]) "none" none none none []
        none "f"
      = ⟨.error (.valueError "You should use explicit OAuth grant for passthrough scopes like bot."),
          ⟨none, none, none⟩⟩ :=
  c4_passthrough_requires_consent ⟨1, "u"⟩ ⟨none, none, none⟩ (some ["bot"]) "none"
    none none none [] none "f" (by decide) (by decide)

/-- C5 counterexample: create_session called with permissions = -5, a
negative integer, is accepted rather than rejected: the call returns an
authorization URL, not an error. -/
theorem c5_negative_permissions_accepted :
    ∃ u, (create_session ⟨1, "u"⟩ ⟨none, none, none⟩ (some ["identify"]) "consent"
      (some (.intVal (-5))) none none [] none "f").result = .ok u :=
  ⟨_, rfl⟩

/-- C5 amended: a permissions argument that is neither an int nor a
discord.Permissions value is rejected with the configuration error before
any session mutation or URL construction, while every int value (negative
included) and every discord.Permissions value passes the check and the
call returns an authorization URL. -/
theorem c5_permissions_validation (cfg : ClientConfig) (sess : Session)
    (scope : Option (List String)) (guild_id : Option Int) (dgs : Option Bool)
    (params : Params) (reqScope : Option String) (fresh : String) (d : String) :
    (create_session cfg sess scope "consent" (some (.other d)) guild_id dgs params
        reqScope fresh
      = ⟨.error (.valueError "permissions must be an int or discord.Permissions."), sess⟩)
    ∧ (∀ i : Int, ∃ u, (create_session cfg sess scope "consent" (some (.intVal i))
        guild_id dgs params reqScope fresh).result = .ok u)
    ∧ (∀ n : Nat, ∃ u, (create_session cfg sess scope "consent" (some (.permsObj n))
        guild_id dgs params reqScope fresh).result = .ok u) :=
  ⟨by simp [create_session], fun i => ⟨_, rfl⟩, fun n => ⟨_, rfl⟩⟩

/-- C6: a callback request carrying a non-empty provider error string
returns that raw string as data, leaves the session (token record
included) unchanged, and never calls the token endpoint. -/
theorem c6_provider_error_short_circuits (sess : Session) (st : Option SVal)
    (e : String) (tok : TokenRecord) (he : e ≠ "") :
    callback sess ⟨some e, st⟩ tok = ⟨.ok (.errorStr e), sess, false⟩ := by
  simp [callback, he]

/-- Witness for C6: callback with error "access_denied" returns the string
as data without touching the session or the token endpoint. -/
theorem c6_provider_error_witness :
    callback ⟨none, none, none⟩ ⟨some "access_denied", none⟩ ⟨"t"⟩
      = ⟨.ok (.errorStr "access_denied"), ⟨none, none, none⟩, false⟩ :=
  c6_provider_error_short_circuits ⟨none, none, none⟩ none "access_denied" ⟨"t"⟩
    (by decide)

/-- C7: after revoke, the cache entry of the current identity is absent,
all three session-state slots are cleared, authorized reports false, and a
subsequent fetch_user is a full miss performing one upstream call; all of
this regardless of what the cache and session held before. -/
theorem c7_revoke_clears_everything (st : ClientState) (uid : Nat) (apiUser : User) :
    get_from_cache (revoke st uid).usersCache uid = none
    ∧ (revoke st uid).session = ⟨none, none, none⟩
    ∧ authorized (revoke st uid).session = false
    ∧ (fetch_user (revoke st uid).usersCache uid apiUser).upstreamCalls = 1 := by
  refine ⟨get_from_cache_cachePop st.usersCache uid, rfl, rfl, ?_⟩
  simp [fetch_user, revoke, get_from_cache_cachePop]

/-- C8: cache discipline of the fetch operations. On a hit each of
fetch_user, fetch_connections and fetch_guilds returns the cached value
with zero upstream calls and an unchanged cache; on a miss each performs
exactly one upstream fetch and returns the fetched value, fetch_user
populating the cache (and the attached-list fetches repopulating the user
entry when one exists); and when the cached user entry is absent the
connection and guild fetches are treated as misses and fetch from the
API. -/
theorem c8_fetch_cache_discipline (c : UsersCache) (uid : Nat) (u : User)
    (apiUser : User) (apiConns apiGuilds : List String) :
    (get_from_cache c uid = some u →
      fetch_user c uid apiUser = ⟨u, c, 0⟩
      ∧ (∀ cs, u.connections = some cs → fetch_connections c uid apiConns = ⟨cs, c, 0⟩)
      ∧ (∀ gs, u.guilds = some gs → fetch_guilds c uid apiGuilds = ⟨gs, c, 0⟩)
      ∧ (u.connections = none →
          fetch_connections c uid apiConns
            = ⟨apiConns, cacheInsert c uid { u with connections := some apiConns }, 1⟩)
      ∧ (u.guilds = none →
          fetch_guilds c uid apiGuilds
            = ⟨apiGuilds, cacheInsert c uid { u with guilds := some apiGuilds }, 1⟩))
    ∧ (get_from_cache c uid = none →
      fetch_user c uid apiUser = ⟨apiUser, cacheInsert c uid apiUser, 1⟩
      ∧ get_from_cache (fetch_user c uid apiUser).cache uid = some apiUser
      ∧ fetch_connections c uid apiConns = ⟨apiConns, c, 1⟩
      ∧ fetch_guilds c uid apiGuilds = ⟨apiGuilds, c, 1⟩) := by
  constructor
  · intro h
    exact ⟨by simp [fetch_user, h],
      fun cs hcs => by simp [fetch_connections, h, hcs],
      fun gs hgs => by simp [fetch_guilds, h, hgs],
      fun hc => by simp [fetch_connections, h, hc],
      fun hg => by simp [fetch_guilds, h, hg]⟩
  · intro h
    refine ⟨by simp [fetch_user, h], ?_, by simp [fetch_connections, h],
      by simp [fetch_guilds, h]⟩
    simp [fetch_user, h, get_from_cache_cacheInsert]

/-- Witness for C8 at concrete inputs: a cache holding user 1 with attached
lists (hit side), and the empty cache (miss side). -/
theorem c8_fetch_witness :
    (fetch_user [(1, (⟨1, some ["c1"], some ["g1"]⟩ : User))] 1 ⟨1, none, none⟩
        = ⟨⟨1, some ["c1"], some ["g1"]⟩, [(1, ⟨1, some ["c1"], some ["g1"]⟩)], 0⟩
      ∧ fetch_connections [(1, (⟨1, some ["c1"], some ["g1"]⟩ : User))] 1 ["x"]
        = ⟨["c1"], [(1, ⟨1, some ["c1"], some ["g1"]⟩)], 0⟩)
    ∧ (fetch_user [] 1 ⟨1, none, none⟩
        = ⟨⟨1, none, none⟩, cacheInsert [] 1 ⟨1, none, none⟩, 1⟩
      ∧ fetch_guilds [] 1 ["g"] = ⟨["g"], [], 1⟩) :=
  ⟨⟨((c8_fetch_cache_discipline [(1, ⟨1, some ["c1"], some ["g1"]⟩)] 1
        ⟨1, some ["c1"], some ["g1"]⟩ ⟨1, none, none⟩ ["x"] ["y"]).1 rfl).1,
    ((c8_fetch_cache_discipline [(1, ⟨1, some ["c1"], some ["g1"]⟩)] 1
        ⟨1, some ["c1"], some ["g1"]⟩ ⟨1, none, none⟩ ["x"] ["y"]).1 rfl).2.1 ["c1"] rfl⟩,
   ⟨((c8_fetch_cache_discipline [] 1 ⟨1, some ["c1"], some ["g1"]⟩ ⟨1, none, none⟩
        ["x"] ["g"]).2 rfl).1,
    ((c8_fetch_cache_discipline [] 1 ⟨1, some ["c1"], some ["g1"]⟩ ⟨1, none, none⟩
        ["x"] ["g"]).2 rfl).2.2.2⟩⟩

/-- C9 counterexample: permissions supplied as 0 (a valid non-negative
bitmask) yields an authorization URL with no permissions query parameter
at all, because line 108 of client.py tests Python truthiness rather than
presence. -/
theorem c9_zero_permissions_dropped :
    ∃ u, (create_session ⟨1, "u"⟩ ⟨none, none, none⟩ (some ["identify", "email"])
        "consent" (some (.intVal 0)) none none [] none "f").result = .ok u
      ∧ u.all (fun kv => kv.1 != "permissions") = true :=
  ⟨_, rfl, rfl⟩

/-- C9 amended: every successful create_session URL contains the client id,
the redirect URI, the scope string and the encoded state; the permissions
and guild_id query parameters appear exactly when supplied with a nonzero
(truthy) value, and disable_guild_select exactly when supplied at all; in
particular no permissions parameter is present when none was supplied. -/
theorem c9_url_contents (cfg : ClientConfig) (sess : Session)
    (scope : Option (List String)) (permissions : Option Int) (guild_id : Option Int)
    (dgs : Option Bool) (params : Params) (reqScope : Option String) (fresh : String) :
    ∃ u, (create_session cfg sess scope "consent" (permissions.map PermArg.intVal)
        guild_id dgs params reqScope fresh).result = .ok u
      ∧ ("client_id", QVal.i (Int.ofNat cfg.clientId)) ∈ u
      ∧ ("redirect_uri", QVal.s cfg.redirectUri) ∈ u
      ∧ ("scope", QVal.s (String.intercalate " " (effectiveScope scope reqScope))) ∈ u
      ∧ ("state", QVal.st (jwtEncode params (sess.oauthState.getD (.tok fresh)))) ∈ u
      ∧ ((∃ q, ("permissions", q) ∈ u) ↔ ∃ p, permissions = some p ∧ p ≠ 0)
      ∧ ((∃ q, ("guild_id", q) ∈ u) ↔ ∃ g, guild_id = some g ∧ g ≠ 0)
      ∧ ((∃ q, ("disable_guild_select", q) ∈ u) ↔ ∃ b, dgs = some b) := by
  rcases permissions with _ | p <;> rcases guild_id with _ | g <;>
    rcases dgs with _ | b <;> refine ⟨_, rfl, ?_⟩
  all_goals try by_cases hp0 : p = 0
  all_goals try by_cases hg0 : g = 0
  all_goals simp_all [baseAuthParams]

/-- C10: when the provider reported no error and state verification fails,
callback has already fetched and persisted the token: the outcome carries
the propagated invalid-state error, yet the session holds the newly
fetched token record (no rollback), and the token endpoint was called. -/
theorem c10_token_persisted_before_state_check (sess : Session) (stArg : Option SVal)
    (tok : TokenRecord)
    (hdec : decodeState stArg sess.rawState = .error .invalidState) :
    callback sess ⟨none, stArg⟩ tok
      = ⟨.error .invalidState, { sess with token := some tok }, true⟩ := by
  simp [callback, save_authorization_token, hdec, Except.map]

/-- Witness for C10: a session holding raw state "b" and an old token; the
callback carries a state signed under "a", verification fails, and the
session afterwards holds the newly fetched token. -/
theorem c10_token_persisted_witness :
    callback ⟨some (.tok "b"), none, some ⟨"old"⟩⟩
        ⟨none, some (jwtEncode [] (.tok "a"))⟩ ⟨"new"⟩
      = ⟨.error .invalidState, ⟨some (.tok "b"), none, some ⟨"new"⟩⟩, true⟩ :=
  c10_token_persisted_before_state_check ⟨some (.tok "b"), none, some ⟨"old"⟩⟩
    (some (jwtEncode [] (.tok "a"))) ⟨"new"⟩ rfl

end FlaskDiscord
